import Mathlib

/-!
# Patrol-AI: route negotiation, road-point validation and route rendering

A shallow embedding of the decision logic of

* `src/pages/RouteGenerator.jsx` (`handleGenerate`, the two resets, the "Points Visited"
  figure, the route markers),
* `src/utils/validateRoadPoint.js` (`BASE`, `isRoadReachable`),
* `src/components/MapView.jsx` (`tileStyles`, `ChangeMapStyle`), and
* `src/components/Navbar.jsx` (theme initialisation, `toggleTheme`).

JavaScript numbers are embedded as exact rationals extended with `NaN` and the two
infinities; rounding of IEEE doubles is not modelled. The collaborators whose code
lives in other modules (`generateSmartRoute`, `getRoadRoute`, `window.confirm`,
`fetch`) are parameters of the embedding, and every call made to them is recorded
in a trace.
-/

namespace PatrolAI

/-! ## JavaScript values -/

/-- A JavaScript number: `NaN`, an infinity, or a finite value. -/
inductive JSNumber where
  | nan
  | negInf
  | posInf
  | num (q : ℚ)
  deriving DecidableEq

/-- The JavaScript `a + b` on numbers. -/
def jsAdd : JSNumber → JSNumber → JSNumber
  | .nan, _ => .nan
  | _, .nan => .nan
  | .posInf, .negInf => .nan
  | .negInf, .posInf => .nan
  | .posInf, _ => .posInf
  | _, .posInf => .posInf
  | .negInf, _ => .negInf
  | _, .negInf => .negInf
  | .num a, .num b => .num (a + b)

/-- The JavaScript `a < b` on numbers (false as soon as one side is `NaN`). -/
def jsLt : JSNumber → JSNumber → Bool
  | .nan, _ => false
  | _, .nan => false
  | .num a, .num b => decide (a < b)
  | .negInf, .negInf => false
  | .negInf, _ => true
  | _, .negInf => false
  | .posInf, _ => false
  | _, .posInf => true

/-- The JavaScript `a > b` on numbers. -/
def jsGt (a b : JSNumber) : Bool := jsLt b a

/-- The JavaScript `a <= b` on numbers (false as soon as one side is `NaN`). -/
def jsLe : JSNumber → JSNumber → Bool
  | .nan, _ => false
  | _, .nan => false
  | a, b => !jsLt b a

/-- The JavaScript `a >= b` on numbers. -/
def jsGe (a b : JSNumber) : Bool := jsLe b a

/-- The JavaScript values a field read from JSON (or left out) can hold. An array or
object is kept as the string its conversion to a primitive gives (`[9]` gives `"9"`, `[]`
gives `""`). -/
inductive JSVal where
  | undefined
  | null
  | bool (b : Bool)
  | number (x : JSNumber)
  | string (s : String)
  | object (primitive : String)
  deriving DecidableEq

/-- Truthiness of a value, as used by `&&`, `!!` and `? :`. -/
def truthy : JSVal → Bool
  | .undefined => false
  | .null => false
  | .bool b => b
  | .number .nan => false
  | .number (.num q) => decide (q ≠ 0)
  | .number _ => true
  | .string s => decide (s ≠ "")
  | .object _ => true

/-- The JavaScript `Number(v)`. The conversion of string contents (`StringToNumber` of
the language standard) is the parameter `strNum`. -/
def toNumber (strNum : String → JSNumber) : JSVal → JSNumber
  | .undefined => .nan
  | .null => .num 0
  | .bool true => .num 1
  | .bool false => .num 0
  | .number x => x
  | .string s => strNum s
  | .object primitive => strNum primitive

/-! ## Data model -/

/-- A waypoint or zone: the fields the page reads. -/
structure Zone where
  name : JSVal
  lat : JSNumber
  lng : JSNumber
  risk : JSVal
  deriving DecidableEq

/-- The result of `generateSmartRoute`. -/
structure RoutePlan where
  route : List Zone
  totalDistance : JSNumber
  deriving DecidableEq

/-- The result of `getRoadRoute`. -/
structure RoadRoute where
  routeCoords : List (JSNumber × JSNumber)
  distanceKm : JSNumber
  durationMin : JSNumber
  deriving DecidableEq

/-- A coordinate as returned by `getBaseLocation` or passed to `isRoadReachable`. -/
structure LatLng where
  lat : JSNumber
  lng : JSNumber
  deriving DecidableEq

/-- The state of the `RouteGenerator` component: the shared zones and the `useState`
cells. -/
structure State where
  zones : List Zone
  kmLimit : JSNumber
  radius : JSNumber
  routeData : Option RoadRoute
  selectedZones : List Zone
  loading : Bool
  activeTheme : String
  base : LatLng
  deriving DecidableEq

/-! ## `handleGenerate` -/

/-- A call made by `handleGenerate` to one of its collaborators. -/
inductive Event where
  | routeBuilder (zones : List Zone) (kmLimit riskThreshold radius : JSNumber)
      (prioritizeSafety : Bool)
  | resolver (message : String)
  | roadRoute (route : List Zone)
  deriving DecidableEq

/-- The collaborators of `handleGenerate`; `ε` is the type of thrown values. -/
structure Env (ε : Type) where
  generateSmartRoute : List Zone → JSNumber → JSNumber → JSNumber → Bool → Except ε RoutePlan
  confirm : String → Bool
  getRoadRoute : List Zone → Except ε RoadRoute

/-- The text shown by `window.confirm`. -/
def confirmMessage : String :=
  "High-risk coverage exceeds distance.\nOK = Prioritize Safety\nCancel = Limit Distance"

/-- The risk threshold of the first attempt (line 132). -/
def firstRiskThreshold : JSNumber := .num 2

/-- The risk threshold of the second attempt (line 139). -/
def secondRiskThreshold : JSNumber := .num 5

/-- The margin added to `kmLimit` in the test of line 135. -/
def tolerance : JSNumber := .num 5

/-- Lines 132-140 of `RouteGenerator.jsx`: the value of `finalRouteData` when line 142
is reached, or the thrown value, together with the calls made on the way. -/
def finalRouteData {ε : Type} (env : Env ε) (zones : List Zone) (kmLimit radius : JSNumber) :
    List Event × Except ε RoutePlan :=
  let first := Event.routeBuilder zones kmLimit firstRiskThreshold radius true
  match env.generateSmartRoute zones kmLimit firstRiskThreshold radius true with
  | .error e => ([first], .error e)
  | .ok forced =>
    if jsGt forced.totalDistance (jsAdd kmLimit tolerance) then
      let choice := env.confirm confirmMessage
      let second := Event.routeBuilder zones kmLimit secondRiskThreshold radius choice
      ([first, Event.resolver confirmMessage, second],
        env.generateSmartRoute zones kmLimit secondRiskThreshold radius choice)
    else
      ([first], .ok forced)

/-- What a run of `handleGenerate` leaves behind. -/
structure Outcome (ε : Type) where
  result : Except ε Unit
  state : State
  trace : List Event

/-- The click handler `handleGenerate` (lines 129-149): `try { ... } finally
{ setLoading(false) }` with no `catch`, so a thrown value leaves the handler. -/
def handleGenerate {ε : Type} (env : Env ε) (s : State) : Outcome ε :=
  let s1 := { s with loading := true }
  match finalRouteData env s.zones s.kmLimit s.radius with
  | (tr, .error e) => { result := .error e, state := { s1 with loading := false }, trace := tr }
  | (tr, .ok plan) =>
    let s2 := { s1 with selectedZones := plan.route }
    match env.getRoadRoute plan.route with
    | .error e =>
      { result := .error e, state := { s2 with loading := false },
        trace := tr ++ [Event.roadRoute plan.route] }
    | .ok road =>
      let s3 := { s2 with routeData := some road }
      { result := .ok (), state := { s3 with loading := false },
        trace := tr ++ [Event.roadRoute plan.route] }

/-- Whether a recorded call is a call of `generateSmartRoute`. -/
def Event.isRouteBuilder : Event → Bool
  | .routeBuilder _ _ _ _ _ => true
  | _ => false

/-- Whether a recorded call is a call of `window.confirm`. -/
def Event.isResolver : Event → Bool
  | .resolver _ => true
  | _ => false

/-- Number of `generateSmartRoute` calls in a trace. -/
def routeBuilderCalls (tr : List Event) : Nat := tr.countP Event.isRouteBuilder

/-- Number of `window.confirm` calls in a trace. -/
def resolverCalls (tr : List Event) : Nat := tr.countP Event.isResolver

/-! ## The planner behind `generateSmartRoute` -/

/-- Modelled from the spec: the qualifying set of RouteBuilder step 1 (the body of
`generateSmartRoute`, module `utils/routeGenerator`, is not among the sources):
"Partition `candidates` into `qualifying = { z : z.risk ≥ riskThreshold }` and discard the
rest". The comparison is the JavaScript `>=`. -/
def qualifying (strNum : String → JSNumber) (riskThreshold : JSNumber)
    (candidates : List Zone) : List Zone :=
  candidates.filter (fun z => jsGe (toNumber strNum z.risk) riskThreshold)

/-- Modelled from the spec: the error kinds of section 7. -/
inductive PlannerError where
  | InvalidInput
  | RoutingUnavailable
  | DecisionTimeout
  deriving DecidableEq

/-- Modelled from the spec: the input check of the planner (the body of
`generateSmartRoute`, module `utils/routeGenerator`, is not among the sources):
"`InvalidInput` (malformed coordinates, negative `kmLimit`/`radiusKm`) — fails fast, no
partial plan returned". `build` stands for the rest of the planner. -/
def generateSmartRouteChecked
    (build : List Zone → JSNumber → JSNumber → JSNumber → Bool → Except PlannerError RoutePlan)
    (zones : List Zone) (kmLimit riskThreshold radius : JSNumber) (prioritizeSafety : Bool) :
    Except PlannerError RoutePlan :=
  if jsLt kmLimit (.num 0) || jsLt radius (.num 0) then .error .InvalidInput
  else build zones kmLimit riskThreshold radius prioritizeSafety

/-! ## `validateRoadPoint.js` -/

/-- The base-location store read by `getBaseLocation()`. -/
structure BaseStore where
  current : LatLng
  deriving DecidableEq

/-- The call `getBaseLocation()`: the coordinate held by the store at the time of the call. -/
def getBaseLocation (store : BaseStore) : LatLng := store.current

/-- The module scope of `validateRoadPoint.js`: the constant `BASE`. -/
structure ValidateRoadPoint where
  BASE : LatLng
  deriving DecidableEq

/-- Loading `validateRoadPoint.js`: line 3, `const BASE = getBaseLocation();`. -/
def loadValidateRoadPoint (store : BaseStore) : ValidateRoadPoint :=
  { BASE := getBaseLocation store }

/-- The request passed to `fetch` (lines 12-27). -/
structure DirectionsRequest where
  url : String
  method : String
  authorization : String
  contentType : String
  coordinates : List (List JSNumber)
  deriving DecidableEq

/-- The request `isRoadReachable(point)` builds. -/
def directionsRequest (m : ValidateRoadPoint) (point : LatLng) : DirectionsRequest :=
  { url := "https://api.openrouteservice.org/v2/directions/driving-car/geojson"
    method := "POST"
    authorization := "5b3ce3597851110001cf62487243b358f4c9427986c9ac997c5c079c"
    contentType := "application/json"
    coordinates := [[m.BASE.lng, m.BASE.lat], [point.lng, point.lat]] }

/-- What `await fetch(...)` followed by `await res.json()` can give: the request is
rejected, the body is not JSON, the body parses to `null`, or it parses to a value whose
property `features` reads as `features` (`undefined` when the property is absent). -/
inductive FetchResult where
  | rejected
  | notJson
  | parsedNull
  | parsed (features : JSVal)
  deriving DecidableEq

/-- The function `isRoadReachable(point)`: the request sent and the boolean it resolves
to. Reading `features` of `null` throws, and every thrown value is caught (line 33). -/
def isRoadReachable (m : ValidateRoadPoint) (fetch : DirectionsRequest → FetchResult)
    (point : LatLng) : DirectionsRequest × Bool :=
  let req := directionsRequest m point
  match fetch req with
  | .rejected => (req, false)
  | .notJson => (req, false)
  | .parsedNull => (req, false)
  | .parsed features => (req, truthy features)

/-! ## Rendering of the selected route -/

/-- The figure shown as "Points Visited" (line 215):
`Math.max(selectedZones.length - 2, 0)`. -/
def pointsVisited (selectedZones : List Zone) : Int :=
  max ((selectedZones.length : Int) - 2) 0

/-- The three marker icons of lines 60-62. -/
inductive Icon where
  | highRiskIcon
  | routineIcon
  | baseIcon
  deriving DecidableEq

/-- The legend entry with the colour of an icon (lines 312-323). -/
def legend : Icon → String
  | .baseIcon => "HQ"
  | .highRiskIcon => "CRITICAL"
  | .routineIcon => "ROUTINE"

/-- Line 286: `index === 0 || index === selectedZones.length - 1`. -/
def isBase (length index : Nat) : Bool :=
  decide (index = 0) || decide ((index : Int) = (length : Int) - 1)

/-- Line 287: `zone.risk && Number(zone.risk) >= 8`, read as a condition. -/
def isHighRisk (strNum : String → JSNumber) (zone : Zone) : Bool :=
  truthy zone.risk && jsGe (toNumber strNum zone.risk) (.num 8)

/-- Line 288: the icon of the marker at `index`. -/
def markerIcon (strNum : String → JSNumber) (length index : Nat) (zone : Zone) : Icon :=
  if isBase length index then .baseIcon
  else if isHighRisk strNum zone then .highRiskIcon else .routineIcon

/-- Lines 285-297: the icons of the markers drawn for `selectedZones`, in order. -/
def routeMarkers (strNum : String → JSNumber) (selectedZones : List Zone) : List Icon :=
  selectedZones.enum.map (fun p => markerIcon strNum selectedZones.length p.1 p.2)

/-- The entries of a route other than its first and its last. -/
def innerWaypoints (route : List Zone) : List Zone := route.tail.dropLast

/-! ## The page around `isRoadReachable`, and exemplary inputs -/

/-- The exemplary state used to instantiate the statements below. -/
def sampleState : State :=
  { zones := [], kmLimit := .num 20, radius := .num 10, routeData := none,
    selectedZones := [], loading := false, activeTheme := "light",
    base := { lat := .num 13, lng := .num 80 } }

/-- An exemplary waypoint. -/
def sampleZone : Zone :=
  { name := .string "Z1", lat := .num 13, lng := .num 80, risk := .number (.num 9) }

/-- An exemplary road route. -/
def sampleRoad : RoadRoute :=
  { routeCoords := [], distanceKm := .num 30, durationMin := .num 45 }

/-- An environment whose planner answers every call with a plan of length `d` km. -/
def constEnv (d : ℚ) (choice : Bool) : Env Unit :=
  { generateSmartRoute := fun _ _ _ _ _ => .ok { route := [sampleZone], totalDistance := .num d }
    confirm := fun _ => choice
    getRoadRoute := fun _ => .ok sampleRoad }

/-- A zone of risk 3. -/
def riskThreeZone : Zone :=
  { name := .string "Z3", lat := .num 13, lng := .num 80, risk := .number (.num 3) }

/-- An environment whose planner returns a plan of 10 km and whose road routing fails. -/
def roadFailEnv : Env String :=
  { generateSmartRoute := fun _ _ _ _ _ => .ok { route := [sampleZone], totalDistance := .num 10 }
    confirm := fun _ => true
    getRoadRoute := fun _ => .error "routing unavailable" }

/-- A state that already shows a road route. -/
def shownState : State := { sampleState with routeData := some sampleRoad }

/-- The page once `validateRoadPoint.js` is loaded: the base-location store and the module
scope. -/
structure Runtime where
  store : BaseStore
  validateRoadPoint : ValidateRoadPoint
  deriving DecidableEq

/-- Loading the module while the base location is `b0`. -/
def Runtime.start (b0 : LatLng) : Runtime :=
  { store := { current := b0 }, validateRoadPoint := loadValidateRoadPoint { current := b0 } }

/-- A change of the base location: the store holds the new coordinate; line 3 of the
loaded module is not evaluated again. -/
def Runtime.moveBase (rt : Runtime) (b1 : LatLng) : Runtime :=
  { rt with store := { current := b1 } }

/-- A call of `isRoadReachable(point)` on the page. -/
def Runtime.isRoadReachable (rt : Runtime) (fetch : DirectionsRequest → FetchResult)
    (point : LatLng) : DirectionsRequest × Bool :=
  PatrolAI.isRoadReachable rt.validateRoadPoint fetch point

/-- The base location when the module is loaded. -/
def hqAtLoad : LatLng := { lat := .num (261 / 20), lng := .num (321 / 4) }

/-- The base location after the move. -/
def hqMoved : LatLng := { lat := .num 12, lng := .num 79 }

/-- The point that is checked. -/
def checkedPoint : LatLng := { lat := .num (327 / 25), lng := .num (8027 / 100) }

/-- A provider that answers with a feature collection. -/
def okFetch : DirectionsRequest → FetchResult := fun _ => .parsed (.object "[object Object]")

/-- A conversion of string contents that knows the empty string only. -/
def emptyOnlyStrNum : String → JSNumber := fun s => if s = "" then .num 0 else .nan

/-! ## The resets of `RouteGenerator` -/

/-- Lines 111-117: the callback registered with `subscribeBase`, run when the base
location changes. -/
def onBaseChange (store : BaseStore) (s : State) : State :=
  { s with base := getBaseLocation store, routeData := none, selectedZones := [] }

/-- Lines 124-127: the body of the effect that depends on `[zones]`. -/
def clearOldRoutes (s : State) : State :=
  { s with routeData := none, selectedZones := [] }

/-- A change of the shared zones (`setZones` in `useSharedZones`) followed by the effect
of lines 124-127, which runs because `zones` is a new value. -/
def onZonesChange (zones : List Zone) (s : State) : State :=
  clearOldRoutes { s with zones := zones }

/-! ## The `try` block of `isRoadReachable` -/

/-- The kinds of value thrown inside the `try` block of `isRoadReachable`. -/
inductive Thrown where
  | networkError
  | syntaxError
  | typeError
  deriving DecidableEq

/-- Lines 12-31, the `try` block: `point` is `none` when the argument is `undefined` or
`null`, and reading `point.lng` then throws before any request is made; `await fetch`
throws when the request is rejected, `await res.json()` when the body is not JSON, and
`data.features` when `data` is `null`. -/
def isRoadReachableTry (m : ValidateRoadPoint) (fetch : DirectionsRequest → FetchResult)
    (point : Option LatLng) : Except Thrown Bool :=
  match point with
  | none => .error .typeError
  | some pt =>
    match fetch (directionsRequest m pt) with
    | .rejected => .error .networkError
    | .notJson => .error .syntaxError
    | .parsedNull => .error .typeError
    | .parsed features => .ok (truthy features)

/-- How the promise returned by `isRoadReachable(point)` settles: `.ok b` when it resolves
to `b`, `.error` when it rejects. Line 33 catches whatever the `try` block throws. -/
def isRoadReachableSettled (m : ValidateRoadPoint) (fetch : DirectionsRequest → FetchResult)
    (point : Option LatLng) : Except Thrown Bool :=
  match isRoadReachableTry m fetch point with
  | .ok b => .ok b
  | .error _ => .ok false

/-! ## `MapView.jsx`: the tile styles -/

/-- A tile definition of `tileStyles`. -/
structure TileStyle where
  url : String
  attribution : String
  deriving DecidableEq

/-- The entry `clean` of `tileStyles`. -/
def TileStyle.clean : TileStyle :=
  { url := "https://\x7bs\x7d.basemaps.cartocdn.com/light_all/\x7bz\x7d/\x7bx\x7d/\x7by\x7d\x7br\x7d.png"
    attribution := "&copy; CARTO" }

/-- The entry `detail` of `tileStyles`. -/
def TileStyle.detail : TileStyle :=
  { url := "https://\x7bs\x7d.tile.openstreetmap.org/\x7bz\x7d/\x7bx\x7d/\x7by\x7d.png"
    attribution := "&copy; OpenStreetMap" }

/-- The entry `tactical` of `tileStyles`. -/
def TileStyle.tactical : TileStyle :=
  { url := "https://\x7bs\x7d.basemaps.cartocdn.com/dark_all/\x7bz\x7d/\x7bx\x7d/\x7by\x7d\x7br\x7d.png"
    attribution := "&copy; CARTO" }

/-- The entry `imagery` of `tileStyles`. -/
def TileStyle.imagery : TileStyle :=
  { url := "https://server.arcgisonline.com/ArcGIS/rest/services/World_Imagery/MapServer/tile/\x7bz\x7d/\x7by\x7d/\x7bx\x7d"
    attribution := "&copy; ESRI" }

/-- The property names an object literal inherits from `Object.prototype`. -/
def objectPrototypeNames : List String :=
  ["constructor", "__defineGetter__", "__defineSetter__", "hasOwnProperty",
   "__lookupGetter__", "__lookupSetter__", "isPrototypeOf", "propertyIsEnumerable",
   "toString", "valueOf", "__proto__", "toLocaleString"]

/-- What reading `tileStyles[key]` gives: one of the four own entries, a member inherited
from `Object.prototype` (a function or object, without `url` or `attribution`), or
`undefined`. -/
inductive Property where
  | own (style : TileStyle)
  | inherited (name : String)
  | undefined
  deriving DecidableEq

/-- Truthiness of a value read from `tileStyles`. -/
def Property.truthy : Property → Bool
  | .own _ => true
  | .inherited _ => true
  | .undefined => false

/-- The object literal `tileStyles` (lines 9-26), read by property name. -/
def tileStyles (key : String) : Property :=
  if key = "clean" then .own .clean
  else if key = "detail" then .own .detail
  else if key = "tactical" then .own .tactical
  else if key = "imagery" then .own .imagery
  else if key ∈ objectPrototypeNames then .inherited key
  else .undefined

/-- The property name a `mapStyle` value is read under: `none` is an absent (`undefined`)
prop. -/
def propertyKey : Option String → String
  | none => "undefined"
  | some name => name

/-- Line 37: `tileStyles[mapStyle] ? mapStyle : "tactical"`. -/
def ChangeMapStyle.safeStyle (mapStyle : Option String) : Option String :=
  if (tileStyles (propertyKey mapStyle)).truthy then mapStyle else some "tactical"

/-- Line 38: `tileStyles[safeStyle]`. -/
def ChangeMapStyle.selected (mapStyle : Option String) : Property :=
  tileStyles (propertyKey (ChangeMapStyle.safeStyle mapStyle))

/-- Line 13 of `Dashboard.jsx`: `localStorage.getItem("mapStyle") || "tactical"`. -/
def Dashboard.initialMapStyle (stored : Option String) : String :=
  match stored with
  | none => "tactical"
  | some v => if v = "" then "tactical" else v

/-! ## `Navbar.jsx`: the theme -/

/-- What the theme code of `Navbar` reads and writes: the `dark` state cell, whether the
document root carries the class `dark`, and the entry `theme` of `localStorage` (`none`
when there is no entry). Reads and writes of `localStorage` are taken to succeed. -/
structure ThemeState where
  dark : Bool
  rootHasDark : Bool
  theme : Option String
  deriving DecidableEq

/-- Lines 21-30: the effect run once when the component is mounted. -/
def themeInit (s : ThemeState) : ThemeState :=
  if s.theme = some "light" then { s with rootHasDark := false, dark := false }
  else { s with rootHasDark := true, dark := true }

/-- Lines 33-42: `toggleTheme`. -/
def toggleTheme (s : ThemeState) : ThemeState :=
  if s.dark then { rootHasDark := false, theme := some "light", dark := !s.dark }
  else { rootHasDark := true, theme := some "dark", dark := !s.dark }

/-- A reload of the page: the `dark` cell starts at `true` (line 18), the document root
carries the class or not as the served page has it, `localStorage` is kept, and the
initialisation runs. -/
def reload (servedWithDark : Bool) (s : ThemeState) : ThemeState :=
  themeInit { dark := true, rootHasDark := servedWithDark, theme := s.theme }

/-- An environment whose planner fails. -/
def plannerFailEnv : Env String :=
  { generateSmartRoute := fun _ _ _ _ _ => .error "planner failed"
    confirm := fun _ => true
    getRoadRoute := fun _ => .ok sampleRoad }

/-! ## Facts about the number model -/

theorem jsGt_eq_false_of_jsLe {a b : JSNumber} (h : jsLe a b = true) : jsGt a b = false := by
  cases a <;> cases b <;> simp_all [jsLe, jsGt, jsLt]

theorem jsLe_num_num (a b : ℚ) : jsLe (.num a) (.num b) = decide (a ≤ b) := by
  by_cases h : a ≤ b
  · simp [jsLe, jsLt, h]
  · simp [jsLe, jsLt, h, not_le.mp h]

theorem jsGt_num_num (a b : ℚ) : jsGt (.num a) (.num b) = decide (b < a) := by
  simp [jsGt, jsLt]

/-! ## The negotiation in `handleGenerate` -/

/-- C1: when the first attempt `planA = generateSmartRoute(zones, kmLimit, 2, radius, true)`
has `planA.totalDistance <= kmLimit + 5` (equality included), `window.confirm` is not called
and the accepted plan is `planA`: it is the value of `finalRouteData`, its route becomes
`selectedZones`, and the run makes the single planner call and then the road-route call. -/
theorem C1_within_tolerance_accepts_first {ε : Type} (env : Env ε) (s : State) (planA : RoutePlan)
    (hA : env.generateSmartRoute s.zones s.kmLimit (.num 2) s.radius true = .ok planA)
    (hle : jsLe planA.totalDistance (jsAdd s.kmLimit (.num 5)) = true) :
    finalRouteData env s.zones s.kmLimit s.radius
        = ([Event.routeBuilder s.zones s.kmLimit (.num 2) s.radius true], .ok planA)
      ∧ resolverCalls (handleGenerate env s).trace = 0
      ∧ (∀ msg, Event.resolver msg ∉ (handleGenerate env s).trace)
      ∧ (handleGenerate env s).trace
          = [Event.routeBuilder s.zones s.kmLimit (.num 2) s.radius true,
             Event.roadRoute planA.route]
      ∧ (handleGenerate env s).state.selectedZones = planA.route := by
  have hgt : jsGt planA.totalDistance (jsAdd s.kmLimit tolerance) = false :=
    jsGt_eq_false_of_jsLe hle
  have hfin : finalRouteData env s.zones s.kmLimit s.radius
      = ([Event.routeBuilder s.zones s.kmLimit (.num 2) s.radius true], .ok planA) := by
    simp only [finalRouteData, firstRiskThreshold, hA, hgt]
    rfl
  refine ⟨hfin, ?_⟩
  simp only [handleGenerate, hfin]
  cases env.getRoadRoute planA.route <;>
    simp [resolverCalls, Event.isResolver, List.countP_cons, List.countP_nil]

/-- C1 at the boundary: a first plan of exactly `kmLimit + 5 = 25` km is accepted without
a call of `window.confirm`. -/
theorem C1_within_tolerance_accepts_first_witness :
    jsLe (.num 25) (jsAdd sampleState.kmLimit (.num 5)) = true
      ∧ resolverCalls (handleGenerate (constEnv 25 true) sampleState).trace = 0
      ∧ (handleGenerate (constEnv 25 true) sampleState).state.selectedZones = [sampleZone] :=
  have h := C1_within_tolerance_accepts_first (constEnv 25 true) sampleState
    { route := [sampleZone], totalDistance := .num 25 } rfl
    (by simp [sampleState, jsAdd, jsLe_num_num]; norm_num)
  ⟨by simp [sampleState, jsAdd, jsLe_num_num]; norm_num, h.2.1, h.2.2.2.2⟩

/-- C2: when the first attempt has `totalDistance > kmLimit + 5`, the accepted plan is
`generateSmartRoute(zones, kmLimit, 5, radius, d)` with `d` the answer of `window.confirm`
and the zones, limit and radius of the first attempt; whatever the `totalDistance` of that
second plan is, its route becomes `selectedZones` and is the one sent to `getRoadRoute`,
and no further planner call is made. -/
theorem C2_over_tolerance_accepts_second {ε : Type} (env : Env ε) (s : State) (planA : RoutePlan)
    (hA : env.generateSmartRoute s.zones s.kmLimit (.num 2) s.radius true = .ok planA)
    (hgt : jsGt planA.totalDistance (jsAdd s.kmLimit (.num 5)) = true) :
    (finalRouteData env s.zones s.kmLimit s.radius).2
        = env.generateSmartRoute s.zones s.kmLimit (.num 5) s.radius (env.confirm confirmMessage)
      ∧ ∀ planB : RoutePlan,
          env.generateSmartRoute s.zones s.kmLimit (.num 5) s.radius (env.confirm confirmMessage)
              = .ok planB →
            (handleGenerate env s).state.selectedZones = planB.route
            ∧ (handleGenerate env s).trace
                = [Event.routeBuilder s.zones s.kmLimit (.num 2) s.radius true,
                   Event.resolver confirmMessage,
                   Event.routeBuilder s.zones s.kmLimit (.num 5) s.radius
                     (env.confirm confirmMessage),
                   Event.roadRoute planB.route] := by
  have hgt2 : jsGt planA.totalDistance (jsAdd s.kmLimit tolerance) = true := hgt
  have hfin : finalRouteData env s.zones s.kmLimit s.radius
      = ([Event.routeBuilder s.zones s.kmLimit (.num 2) s.radius true,
          Event.resolver confirmMessage,
          Event.routeBuilder s.zones s.kmLimit (.num 5) s.radius (env.confirm confirmMessage)],
         env.generateSmartRoute s.zones s.kmLimit (.num 5) s.radius
           (env.confirm confirmMessage)) := by
    simp only [finalRouteData, firstRiskThreshold, secondRiskThreshold, hA, hgt2]
    rfl
  refine ⟨by rw [hfin], ?_⟩
  intro planB hB
  simp only [handleGenerate, hfin, hB]
  cases env.getRoadRoute planB.route <;> simp

/-- C2 on a plan of 40 km against a limit of 20 km, the answer being Cancel: the second
plan, again of 40 km and so still above 25 km, is accepted. -/
theorem C2_over_tolerance_accepts_second_witness :
    jsGt (.num 40) (jsAdd sampleState.kmLimit (.num 5)) = true
      ∧ (handleGenerate (constEnv 40 false) sampleState).state.selectedZones = [sampleZone]
      ∧ (handleGenerate (constEnv 40 false) sampleState).trace
          = [Event.routeBuilder [] (.num 20) (.num 2) (.num 10) true,
             Event.resolver confirmMessage,
             Event.routeBuilder [] (.num 20) (.num 5) (.num 10) false,
             Event.roadRoute [sampleZone]] :=
  have h := (C2_over_tolerance_accepts_second (constEnv 40 false) sampleState
    { route := [sampleZone], totalDistance := .num 40 } rfl
    (by simp [sampleState, jsAdd, jsGt_num_num]; norm_num)).2
      { route := [sampleZone], totalDistance := .num 40 } rfl
  ⟨by simp [sampleState, jsAdd, jsGt_num_num]; norm_num, h.1, h.2⟩

/-- C3: a run of `handleGenerate` makes exactly one or exactly two planner calls and at
most one call of `window.confirm`; `window.confirm` is called exactly when there are two
planner calls, and then the trace starts planner call, `window.confirm`, planner call: the
decision is asked after the first planner call and before the second. -/
theorem C3_one_or_two_builder_calls {ε : Type} (env : Env ε) (s : State) :
    (routeBuilderCalls (handleGenerate env s).trace = 1
        ∨ routeBuilderCalls (handleGenerate env s).trace = 2)
      ∧ resolverCalls (handleGenerate env s).trace ≤ 1
      ∧ (resolverCalls (handleGenerate env s).trace = 1
          ↔ routeBuilderCalls (handleGenerate env s).trace = 2)
      ∧ ((∃ rest, (handleGenerate env s).trace
              = Event.routeBuilder s.zones s.kmLimit (.num 2) s.radius true :: rest
            ∧ ∀ e ∈ rest, e.isRouteBuilder = false ∧ e.isResolver = false)
          ∨ (∃ rest, (handleGenerate env s).trace
              = Event.routeBuilder s.zones s.kmLimit (.num 2) s.radius true
                  :: Event.resolver confirmMessage
                  :: Event.routeBuilder s.zones s.kmLimit (.num 5) s.radius
                      (env.confirm confirmMessage)
                  :: rest
            ∧ ∀ e ∈ rest, e.isRouteBuilder = false ∧ e.isResolver = false)) := by
  cases h1 : env.generateSmartRoute s.zones s.kmLimit (.num 2) s.radius true with
  | error e =>
    simp [handleGenerate, finalRouteData, firstRiskThreshold, h1, routeBuilderCalls,
      resolverCalls, Event.isRouteBuilder, Event.isResolver]
  | ok forced =>
    by_cases hgt : jsGt forced.totalDistance (jsAdd s.kmLimit tolerance) = true
    · cases h2 : env.generateSmartRoute s.zones s.kmLimit (.num 5) s.radius
          (env.confirm confirmMessage) with
      | error e =>
        simp [handleGenerate, finalRouteData, firstRiskThreshold, secondRiskThreshold, h1,
          hgt, h2, routeBuilderCalls, resolverCalls, Event.isRouteBuilder, Event.isResolver]
      | ok planB =>
        cases h3 : env.getRoadRoute planB.route <;>
          simp [handleGenerate, finalRouteData, firstRiskThreshold, secondRiskThreshold, h1,
            hgt, h2, h3, routeBuilderCalls, resolverCalls, Event.isRouteBuilder,
            Event.isResolver]
    · cases h3 : env.getRoadRoute forced.route <;>
        simp [handleGenerate, finalRouteData, firstRiskThreshold, h1, hgt, h3,
          routeBuilderCalls, resolverCalls, Event.isRouteBuilder, Event.isResolver]

/-! ## The two risk thresholds -/

theorem jsGe_two_of_jsGe_five {x : JSNumber} (h : jsGe x (.num 5) = true) :
    jsGe x (.num 2) = true := by
  cases x with
  | nan => simp [jsGe, jsLe] at h
  | negInf => simp [jsGe, jsLe, jsLt] at h
  | posInf => simp [jsGe, jsLe, jsLt]
  | num q =>
    simp only [jsGe, jsLe_num_num, decide_eq_true_eq] at h ⊢
    linarith

/-- C4, refuted as stated: a zone of risk 3 qualifies under the threshold of the first
attempt (2) and does not qualify under the threshold of the second attempt (5), so the
second qualifying set does not contain the first. -/
theorem C4_second_set_not_wider :
    riskThreeZone ∈ qualifying (fun _ => .nan) firstRiskThreshold [riskThreeZone]
      ∧ riskThreeZone ∉ qualifying (fun _ => .nan) secondRiskThreshold [riskThreeZone] := by
  constructor
  · simp [qualifying, firstRiskThreshold, riskThreeZone, toNumber, jsGe, jsLe_num_num]
    norm_num
  · simp [qualifying, secondRiskThreshold, riskThreeZone, toNumber, jsGe, jsLe_num_num]
    norm_num

/-- C4, amended: for every zone set the qualifying set of the second attempt's threshold
(5) is contained in the qualifying set of the first attempt's threshold (2): the second
attempt uses a stricter threshold and a narrower (or equal) qualifying set. -/
theorem C4_second_set_within_first (strNum : String → JSNumber) (zones : List Zone) :
    qualifying strNum secondRiskThreshold zones ⊆ qualifying strNum firstRiskThreshold zones := by
  intro z hz
  simp only [qualifying, List.mem_filter] at hz ⊢
  exact ⟨hz.1, jsGe_two_of_jsGe_five hz.2⟩

/-! ## Failures in `handleGenerate` -/

/-- C5: when `getRoadRoute` fails on the accepted plan, `handleGenerate` ends with that
failure (there is no `catch`) and `routeData` keeps the value it had before the run: no
road route is made up from the straight-line plan. -/
theorem C5_road_failure_propagates {ε : Type} (env : Env ε) (s : State) (tr : List Event)
    (plan : RoutePlan) (e : ε)
    (hplan : finalRouteData env s.zones s.kmLimit s.radius = (tr, .ok plan))
    (hroad : env.getRoadRoute plan.route = .error e) :
    (handleGenerate env s).result = .error e
      ∧ (handleGenerate env s).state.routeData = s.routeData
      ∧ (handleGenerate env s).trace = tr ++ [Event.roadRoute plan.route] := by
  simp [handleGenerate, hplan, hroad]

/-- C5 on a run whose road routing fails while a road route is on display: the failure
comes out and the displayed road route is the old one. -/
theorem C5_road_failure_propagates_witness :
    (handleGenerate roadFailEnv shownState).result = .error "routing unavailable"
      ∧ (handleGenerate roadFailEnv shownState).state.routeData = some sampleRoad :=
  have h := C5_road_failure_propagates roadFailEnv shownState
    [Event.routeBuilder [] (.num 20) (.num 2) (.num 10) true]
    { route := [sampleZone], totalDistance := .num 10 } "routing unavailable"
    (by
      have hgt : jsGt (JSNumber.num 10) (jsAdd (JSNumber.num 20) tolerance) = false := by
        simp [tolerance, jsAdd, jsGt_num_num]; norm_num
      simp [finalRouteData, roadFailEnv, shownState, sampleState, firstRiskThreshold, hgt])
    rfl
  ⟨h.1, h.2.1⟩

/-- C6: with a planner that rejects a negative `kmLimit` or a negative scan radius with
`InvalidInput`, a run of `handleGenerate` on such a value ends with `InvalidInput` after the
first planner call, without asking for a decision or a road route, and leaves
`selectedZones` and `routeData` as they were. -/
theorem C6_negative_input_fails_fast
    (build : List Zone → JSNumber → JSNumber → JSNumber → Bool → Except PlannerError RoutePlan)
    (confirm : String → Bool) (getRoadRoute : List Zone → Except PlannerError RoadRoute)
    (s : State) (hneg : jsLt s.kmLimit (.num 0) = true ∨ jsLt s.radius (.num 0) = true) :
    (handleGenerate
        { generateSmartRoute := generateSmartRouteChecked build, confirm := confirm,
          getRoadRoute := getRoadRoute } s).result = .error .InvalidInput
      ∧ (handleGenerate
          { generateSmartRoute := generateSmartRouteChecked build, confirm := confirm,
            getRoadRoute := getRoadRoute } s).state.selectedZones = s.selectedZones
      ∧ (handleGenerate
          { generateSmartRoute := generateSmartRouteChecked build, confirm := confirm,
            getRoadRoute := getRoadRoute } s).state.routeData = s.routeData
      ∧ (handleGenerate
          { generateSmartRoute := generateSmartRouteChecked build, confirm := confirm,
            getRoadRoute := getRoadRoute } s).trace
          = [Event.routeBuilder s.zones s.kmLimit (.num 2) s.radius true] := by
  have hchk : generateSmartRouteChecked build s.zones s.kmLimit (.num 2) s.radius true
      = .error .InvalidInput := by
    rcases hneg with h | h <;> simp [generateSmartRouteChecked, h]
  simp [handleGenerate, finalRouteData, hchk, firstRiskThreshold]

/-- C6 on a limit of -1 km, with a planner that would otherwise return a plan. -/
theorem C6_negative_input_fails_fast_witness :
    (jsLt (JSNumber.num (-1)) (.num 0) = true ∨ jsLt (JSNumber.num 10) (.num 0) = true)
      ∧ (handleGenerate
          { generateSmartRoute := generateSmartRouteChecked
              (fun _ _ _ _ _ => .ok { route := [sampleZone], totalDistance := .num 1 }),
            confirm := fun _ => true,
            getRoadRoute := fun _ => .ok sampleRoad }
          { shownState with kmLimit := .num (-1) }).result = .error .InvalidInput :=
  ⟨Or.inl (by simp [jsLt]),
   (C6_negative_input_fails_fast
      (fun _ _ _ _ _ => .ok { route := [sampleZone], totalDistance := .num 1 })
      (fun _ => true) (fun _ => .ok sampleRoad)
      { shownState with kmLimit := .num (-1) } (Or.inl (by simp [jsLt]))).1⟩

/-! ## The request of `isRoadReachable` -/

/-- C7: the request `isRoadReachable(point)` sends carries exactly two coordinate pairs,
the pair of `BASE` (the HQ coordinate the module holds) first and the pair of the point
second, each as `[lng, lat]`. -/
theorem C7_request_coordinates (m : ValidateRoadPoint)
    (fetch : DirectionsRequest → FetchResult) (point : LatLng) :
    (isRoadReachable m fetch point).1.coordinates
        = [[m.BASE.lng, m.BASE.lat], [point.lng, point.lat]]
      ∧ (isRoadReachable m fetch point).1.coordinates.length = 2
      ∧ ∀ store : BaseStore,
          (isRoadReachable (loadValidateRoadPoint store) fetch point).1.coordinates
            = [[(getBaseLocation store).lng, (getBaseLocation store).lat],
               [point.lng, point.lat]] := by
  have key : ∀ m' : ValidateRoadPoint,
      (isRoadReachable m' fetch point).1 = directionsRequest m' point := by
    intro m'
    simp only [isRoadReachable]
    split <;> rfl
  refine ⟨?_, ?_, ?_⟩
  · rw [key]; rfl
  · rw [key]; rfl
  · intro store; rw [key]; rfl

/-- C8, the code at the failing input: the module is loaded while the base location is
(13.05, 80.25), the base location then moves to (12, 79), and a later call of
`isRoadReachable` still sends `[80.25, 13.05]` as first coordinate, not `[79, 12]`. -/
theorem C8_base_is_load_time_snapshot :
    getBaseLocation ((Runtime.start hqAtLoad).moveBase hqMoved).store = hqMoved
      ∧ (((Runtime.start hqAtLoad).moveBase hqMoved).isRoadReachable okFetch
            checkedPoint).1.coordinates.head?
          = some [hqAtLoad.lng, hqAtLoad.lat]
      ∧ (((Runtime.start hqAtLoad).moveBase hqMoved).isRoadReachable okFetch
            checkedPoint).1.coordinates.head?
          ≠ some [hqMoved.lng, hqMoved.lat] := by
  refine ⟨rfl, rfl, ?_⟩
  simp [Runtime.isRoadReachable, Runtime.moveBase, Runtime.start, isRoadReachable, okFetch,
    directionsRequest, loadValidateRoadPoint, getBaseLocation, hqAtLoad, hqMoved]
  norm_num

/-! ## The rendering of the selected route -/

theorem innerWaypoints_length (route : List Zone) :
    (innerWaypoints route).length = route.length - 2 := by
  simp [innerWaypoints, List.length_dropLast, List.length_tail, Nat.sub_sub]

theorem isBase_eq_false_iff (n i : Nat) : isBase n i = false ↔ i ≠ 0 ∧ i + 1 ≠ n := by
  simp only [isBase, Bool.or_eq_false_iff, decide_eq_false_iff_not]
  constructor
  · rintro ⟨h0, h1⟩
    exact ⟨h0, by omega⟩
  · rintro ⟨h0, h1⟩
    exact ⟨h0, by omega⟩

theorem countP_not_isBase (m : Nat) :
    (List.range (m + 2)).countP (fun i => !isBase (m + 2) i) = m := by
  have hmid : ∀ k, k ≤ m →
      (List.range (k + 1)).countP (fun i => !isBase (m + 2) i) = k := by
    intro k
    induction k with
    | zero => intro _; simp [isBase]
    | succ k ih =>
      intro hk
      have hb : isBase (m + 2) (k + 1) = false :=
        (isBase_eq_false_iff _ _).2 ⟨by omega, by omega⟩
      rw [List.range_succ, List.countP_append, ih (by omega)]
      simp [hb]
  have hlast : isBase (m + 2) (m + 1) = true := by
    simp only [isBase, Bool.or_eq_true, decide_eq_true_eq]
    right
    push_cast
    ring
  rw [List.range_succ, List.countP_append, hmid m le_rfl]
  simp [hlast]

/-- C9: for a route of length `n >= 2` the "Points Visited" figure `max(n - 2, 0)` is the
number of route entries other than the first and the last, which is also the number of
positions not drawn as HQ; for every length, 0 and 1 included, the figure is not
negative. -/
theorem C9_points_visited (route : List Zone) :
    (2 ≤ route.length →
        pointsVisited route = ((innerWaypoints route).length : Int)
        ∧ pointsVisited route
            = (((List.range route.length).countP (fun i => !isBase route.length i) : Nat) : Int))
      ∧ 0 ≤ pointsVisited route := by
  refine ⟨?_, by simp [pointsVisited]⟩
  intro h
  obtain ⟨m, hm⟩ : ∃ m, route.length = m + 2 := ⟨route.length - 2, by omega⟩
  rw [innerWaypoints_length, hm, countP_not_isBase]
  simp [pointsVisited, hm]

/-- C9 on the route HQ, zone, zone, HQ: two points visited. -/
theorem C9_points_visited_witness :
    2 ≤ [sampleZone, riskThreeZone, sampleZone, sampleZone].length
      ∧ pointsVisited [sampleZone, riskThreeZone, sampleZone, sampleZone] = 2 :=
  ⟨by decide,
   ((C9_points_visited [sampleZone, riskThreeZone, sampleZone, sampleZone]).1
      (by decide)).1.trans (by simp [innerWaypoints])⟩

theorem isHighRisk_iff (strNum : String → JSNumber) (h0 : strNum "" = .num 0) (z : Zone) :
    isHighRisk strNum z = true
      ↔ z.risk ≠ .undefined ∧ jsGe (toNumber strNum z.risk) (.num 8) = true := by
  have h8 : ¬ ((8 : ℚ) ≤ 0) := by norm_num
  have h81 : ¬ ((8 : ℚ) ≤ 1) := by norm_num
  unfold isHighRisk
  cases hr : z.risk with
  | undefined => simp [truthy]
  | null => simp [truthy, toNumber, jsGe, jsLe_num_num, h8]
  | bool b => cases b <;> simp [truthy, toNumber, jsGe, jsLe_num_num, h8, h81]
  | number x =>
    cases x with
    | nan => simp [truthy, toNumber, jsGe, jsLe]
    | negInf => simp [truthy, toNumber, jsGe, jsLe, jsLt]
    | posInf => simp [truthy, toNumber, jsGe, jsLe, jsLt]
    | num q =>
      by_cases hq : q = 0
      · subst hq
        simp [truthy, toNumber, jsGe, jsLe_num_num, h8]
      · simp [truthy, toNumber, hq]
  | string s =>
    by_cases hs : s = ""
    · subst hs
      simp [truthy, toNumber, h0, jsGe, jsLe_num_num, h8]
    · simp [truthy, toNumber, hs]
  | object p => simp [truthy, toNumber]

theorem routeMarkers_get (strNum : String → JSNumber) (zs : List Zone) (i : Nat) :
    (routeMarkers strNum zs)[i]? = (zs[i]?).map (markerIcon strNum zs.length i) := by
  simp only [routeMarkers, List.getElem?_map, List.getElem?_enum]
  cases zs[i]? <;> rfl

/-- C10: in the markers of the selected route, the first and the last waypoint get the HQ
icon whatever their risk is; every other waypoint gets the CRITICAL icon exactly when its
risk is defined and `Number(risk) >= 8`, and the ROUTINE icon otherwise. `Number("")` is 0,
as the language defines it. -/
theorem C10_marker_icons (strNum : String → JSNumber) (h0 : strNum "" = .num 0)
    (selectedZones : List Zone) (i : Nat) (z : Zone) (hz : selectedZones[i]? = some z) :
    (routeMarkers strNum selectedZones)[i]?
        = some (markerIcon strNum selectedZones.length i z)
      ∧ ((i = 0 ∨ i + 1 = selectedZones.length) →
          legend (markerIcon strNum selectedZones.length i z) = "HQ")
      ∧ (¬ (i = 0 ∨ i + 1 = selectedZones.length) →
          (legend (markerIcon strNum selectedZones.length i z) = "CRITICAL"
              ↔ z.risk ≠ .undefined ∧ jsGe (toNumber strNum z.risk) (.num 8) = true)
          ∧ (¬ (z.risk ≠ .undefined ∧ jsGe (toNumber strNum z.risk) (.num 8) = true) →
              legend (markerIcon strNum selectedZones.length i z) = "ROUTINE")) := by
  refine ⟨by rw [routeMarkers_get, hz]; rfl, ?_, ?_⟩
  · intro hb
    have hbase : isBase selectedZones.length i = true := by
      cases hc : isBase selectedZones.length i with
      | true => rfl
      | false =>
        have := (isBase_eq_false_iff _ _).1 hc
        rcases hb with hb | hb
        · exact absurd hb this.1
        · exact absurd hb this.2
    simp [markerIcon, hbase, legend]
  · intro hnb
    have hbase : isBase selectedZones.length i = false :=
      (isBase_eq_false_iff _ _).2 ⟨fun h => hnb (Or.inl h), fun h => hnb (Or.inr h)⟩
    rw [← isHighRisk_iff strNum h0 z]
    cases hh : isHighRisk strNum z <;> simp [markerIcon, hbase, hh, legend]

/-- C10 on the route HQ, zone of risk 3, zone of risk 9, HQ: the zone of risk 9, at
position 2, is drawn CRITICAL. -/
theorem C10_marker_icons_witness :
    emptyOnlyStrNum "" = .num 0
      ∧ [sampleZone, riskThreeZone, sampleZone, sampleZone][2]? = some sampleZone
      ∧ legend (markerIcon emptyOnlyStrNum 4 2 sampleZone) = "CRITICAL" :=
  ⟨rfl, rfl,
   ((C10_marker_icons emptyOnlyStrNum rfl [sampleZone, riskThreeZone, sampleZone, sampleZone]
      2 sampleZone rfl).2.2 (by decide)).1.2
        ⟨by simp [sampleZone], by simp [sampleZone, toNumber, jsGe, jsLe_num_num]; norm_num⟩⟩

/-! ## The resets of `RouteGenerator` -/

/-- C11: when the base location changes (callback of `subscribeBase`) and when the zone
set changes, the state afterwards has `routeData = null` and `selectedZones = []`, and
`kmLimit`, `radius` and `activeTheme` are what they were. -/
theorem C11_resets_clear_route (store : BaseStore) (zones : List Zone) (s : State) :
    ((onBaseChange store s).routeData = none
        ∧ (onBaseChange store s).selectedZones = []
        ∧ (onBaseChange store s).kmLimit = s.kmLimit
        ∧ (onBaseChange store s).radius = s.radius
        ∧ (onBaseChange store s).activeTheme = s.activeTheme)
      ∧ ((onZonesChange zones s).routeData = none
        ∧ (onZonesChange zones s).selectedZones = []
        ∧ (onZonesChange zones s).kmLimit = s.kmLimit
        ∧ (onZonesChange zones s).radius = s.radius
        ∧ (onZonesChange zones s).activeTheme = s.activeTheme) := by
  simp [onBaseChange, onZonesChange, clearOldRoutes]

/-! ## Totality of `isRoadReachable` -/

/-- C12: the promise of `isRoadReachable(point)` always resolves, to a boolean, and never
rejects, whatever the point and whatever the network call does; it resolves to `true`
exactly when the request is answered, the body parses to a value other than `null`, and
the `features` of that value is truthy. -/
theorem C12_isRoadReachable_total (m : ValidateRoadPoint)
    (fetch : DirectionsRequest → FetchResult) (point : Option LatLng) :
    (∃ b : Bool, isRoadReachableSettled m fetch point = .ok b)
      ∧ (isRoadReachableSettled m fetch point = .ok true
          ↔ ∃ pt features, point = some pt
              ∧ fetch (directionsRequest m pt) = .parsed features
              ∧ truthy features = true)
      ∧ isRoadReachableSettled m fetch point
          = .ok (match point with
                 | none => false
                 | some pt => (isRoadReachable m fetch pt).2) := by
  cases point with
  | none => simp [isRoadReachableSettled, isRoadReachableTry]
  | some pt =>
    cases hf : fetch (directionsRequest m pt) with
    | rejected => simp [isRoadReachableSettled, isRoadReachableTry, isRoadReachable, hf]
    | notJson => simp [isRoadReachableSettled, isRoadReachableTry, isRoadReachable, hf]
    | parsedNull => simp [isRoadReachableSettled, isRoadReachableTry, isRoadReachable, hf]
    | parsed features =>
      simp [isRoadReachableSettled, isRoadReachableTry, isRoadReachable, hf]

/-! ## Atomicity of `handleGenerate` -/

/-- C13, refuted as stated: in a run whose road routing fails, `selectedZones` is already
the route of the new plan while `routeData` is still the old road route, so the pair at
exit differs from the pair at entry. -/
theorem C13_pair_changes_on_road_failure :
    (handleGenerate roadFailEnv shownState).result = .error "routing unavailable"
      ∧ ((handleGenerate roadFailEnv shownState).state.selectedZones,
          (handleGenerate roadFailEnv shownState).state.routeData)
        ≠ (shownState.selectedZones, shownState.routeData) := by
  have hgt : jsGt (JSNumber.num 10) (jsAdd (JSNumber.num 20) tolerance) = false := by
    simp [tolerance, jsAdd, jsGt_num_num]; norm_num
  simp [handleGenerate, finalRouteData, roadFailEnv, shownState, sampleState,
    firstRiskThreshold, hgt]

/-- C13, amended: in every run of `handleGenerate` that ends in an error, `routeData` at
exit equals `routeData` at entry; and when the error comes from a `generateSmartRoute`
call, `selectedZones` at exit equals `selectedZones` at entry as well. -/
theorem C13_failure_keeps_routeData {ε : Type} (env : Env ε) (s : State) (e : ε)
    (herr : (handleGenerate env s).result = .error e) :
    (handleGenerate env s).state.routeData = s.routeData
      ∧ ((∃ e', (finalRouteData env s.zones s.kmLimit s.radius).2 = .error e') →
          (handleGenerate env s).state.selectedZones = s.selectedZones) := by
  rcases hfin : finalRouteData env s.zones s.kmLimit s.radius with ⟨tr, r⟩
  cases r with
  | error e1 => simp [handleGenerate, hfin]
  | ok plan =>
    cases hroad : env.getRoadRoute plan.route with
    | error e2 => simp [handleGenerate, hfin, hroad]
    | ok road => simp [handleGenerate, hfin, hroad] at herr

/-- C13 amended, on a run whose planner fails while a road route is on display: the
displayed road route and the (empty) waypoint list stay. -/
theorem C13_failure_keeps_routeData_witness :
    (handleGenerate plannerFailEnv shownState).result = .error "planner failed"
      ∧ (handleGenerate plannerFailEnv shownState).state.routeData = some sampleRoad
      ∧ (handleGenerate plannerFailEnv shownState).state.selectedZones = [] :=
  have h := C13_failure_keeps_routeData plannerFailEnv shownState "planner failed" rfl
  ⟨rfl, h.1, h.2 ⟨"planner failed", rfl⟩⟩

/-! ## The tile style selected by `ChangeMapStyle` -/

/-- For a `mapStyle` that is not the name of a member of `Object.prototype`, the selected
value is the own entry of that name when there is one, and `tactical` otherwise. -/
theorem ChangeMapStyle.selected_of_not_inherited (mapStyle : Option String)
    (h : propertyKey mapStyle ∉ objectPrototypeNames) :
    ChangeMapStyle.selected mapStyle
      = if propertyKey mapStyle = "clean" then .own .clean
        else if propertyKey mapStyle = "detail" then .own .detail
        else if propertyKey mapStyle = "imagery" then .own .imagery
        else .own .tactical := by
  by_cases h1 : propertyKey mapStyle = "clean"
  · simp [ChangeMapStyle.selected, ChangeMapStyle.safeStyle, tileStyles, h1, Property.truthy]
  by_cases h2 : propertyKey mapStyle = "detail"
  · simp [ChangeMapStyle.selected, ChangeMapStyle.safeStyle, tileStyles, h2, Property.truthy]
  by_cases h3 : propertyKey mapStyle = "tactical"
  · simp [ChangeMapStyle.selected, ChangeMapStyle.safeStyle, tileStyles, h3, Property.truthy]
  by_cases h4 : propertyKey mapStyle = "imagery"
  · simp [ChangeMapStyle.selected, ChangeMapStyle.safeStyle, tileStyles, h4, Property.truthy]
  · have hund : tileStyles (propertyKey mapStyle) = .undefined := by
      simp [tileStyles, h1, h2, h3, h4, h]
    have hsafe : ChangeMapStyle.safeStyle mapStyle = some "tactical" := by
      simp [ChangeMapStyle.safeStyle, hund, Property.truthy]
    have htac : tileStyles (propertyKey (some "tactical")) = .own .tactical := by
      simp [tileStyles, propertyKey]
    simp [ChangeMapStyle.selected, hsafe, htac, h1, h2, h4]

/-- C14, the code at the failing input: with `"constructor"` stored under `mapStyle`,
`Dashboard` passes `"constructor"` on, `tileStyles["constructor"]` is truthy (the inherited
`Object`), so `safeStyle` is `"constructor"` and the selected value is that inherited
member, which is none of the four tile definitions; the fallback `tactical` is not
taken. -/
theorem C14_inherited_name_selected :
    Dashboard.initialMapStyle (some "constructor") = "constructor"
      ∧ ChangeMapStyle.safeStyle (some "constructor") = some "constructor"
      ∧ ChangeMapStyle.selected (some "constructor") = .inherited "constructor"
      ∧ ChangeMapStyle.selected (some "constructor") ≠ .own .clean
      ∧ ChangeMapStyle.selected (some "constructor") ≠ .own .detail
      ∧ ChangeMapStyle.selected (some "constructor") ≠ .own .tactical
      ∧ ChangeMapStyle.selected (some "constructor") ≠ .own .imagery := by
  have hsel : ChangeMapStyle.selected (some "constructor") = .inherited "constructor" := by
    simp [ChangeMapStyle.selected, ChangeMapStyle.safeStyle, tileStyles, propertyKey,
      objectPrototypeNames, Property.truthy]
  refine ⟨by simp [Dashboard.initialMapStyle], ?_, hsel, ?_, ?_, ?_, ?_⟩
  · simp [ChangeMapStyle.safeStyle, tileStyles, propertyKey, objectPrototypeNames,
      Property.truthy]
  all_goals rw [hsel]; simp

/-! ## The theme of `Navbar` -/

theorem themeInit_consistent (s : ThemeState) :
    (themeInit s).dark = (themeInit s).rootHasDark
      ∧ ((themeInit s).theme = some "light" ↔ (themeInit s).dark = false) := by
  by_cases h : s.theme = some "light" <;> simp [themeInit, h]

theorem toggleTheme_consistent (s : ThemeState) :
    (toggleTheme s).dark = (toggleTheme s).rootHasDark
      ∧ ((toggleTheme s).theme = some "light" ↔ (toggleTheme s).dark = false) := by
  cases hd : s.dark <;> simp [toggleTheme, hd]

theorem reachable_consistent (s0 : ThemeState) (n : Nat) :
    (Nat.iterate toggleTheme n (themeInit s0)).dark
        = (Nat.iterate toggleTheme n (themeInit s0)).rootHasDark
      ∧ ((Nat.iterate toggleTheme n (themeInit s0)).theme = some "light"
          ↔ (Nat.iterate toggleTheme n (themeInit s0)).dark = false) := by
  cases n with
  | zero => exact themeInit_consistent s0
  | succ k =>
    rw [Function.iterate_succ_apply']
    exact toggleTheme_consistent _

theorem reload_of_consistent (served : Bool) (s : ThemeState)
    (h : s.theme = some "light" ↔ s.dark = false) :
    (reload served s).dark = s.dark ∧ (reload served s).rootHasDark = s.dark := by
  by_cases hl : s.theme = some "light"
  · simp [reload, themeInit, hl, h.1 hl]
  · have hd : s.dark = true := by
      cases hd : s.dark with
      | true => rfl
      | false => exact absurd (h.2 hd) hl
    simp [reload, themeInit, hl, hd]

theorem toggleTheme_twice (s : ThemeState) (h : s.dark = s.rootHasDark) :
    (toggleTheme (toggleTheme s)).dark = s.dark
      ∧ (toggleTheme (toggleTheme s)).rootHasDark = s.rootHasDark := by
  rw [← h]
  cases hd : s.dark <;> simp [toggleTheme, hd]

/-- C15: in every state reached from the theme initialisation by any number of
`toggleTheme` steps, the `dark` flag equals the presence of the class `dark` on the
document root; a reload, which runs the initialisation again on the stored `theme`, gives
the same `dark` flag and the same class; and two further toggles give back the same flag
and class. -/
theorem C15_theme_round_trip (s0 : ThemeState) (n : Nat) (served : Bool) :
    (Nat.iterate toggleTheme n (themeInit s0)).dark
        = (Nat.iterate toggleTheme n (themeInit s0)).rootHasDark
      ∧ (reload served (Nat.iterate toggleTheme n (themeInit s0))).dark
          = (Nat.iterate toggleTheme n (themeInit s0)).dark
      ∧ (reload served (Nat.iterate toggleTheme n (themeInit s0))).rootHasDark
          = (Nat.iterate toggleTheme n (themeInit s0)).rootHasDark
      ∧ (toggleTheme (toggleTheme (Nat.iterate toggleTheme n (themeInit s0)))).dark
          = (Nat.iterate toggleTheme n (themeInit s0)).dark
      ∧ (toggleTheme (toggleTheme (Nat.iterate toggleTheme n (themeInit s0)))).rootHasDark
          = (Nat.iterate toggleTheme n (themeInit s0)).rootHasDark := by
  have hc := reachable_consistent s0 n
  have hr := reload_of_consistent served _ hc.2
  have ht := toggleTheme_twice _ hc.1
  exact ⟨hc.1, hr.1, hr.2.trans hc.1, ht.1, ht.2⟩

end PatrolAI
